import Mathlib

/-!
Shallow embedding of `src/bot/discordsmf.py` (the discord-smf bot) and proofs
about its behaviour.

Modelling conventions:
* Python strings are Lean `String`s; `str.casefold` is modelled by
  character-wise lowercasing (it agrees with full Unicode casefolding on the
  ASCII names this bot compares).
* Fallible Python code is modelled with `Except PyExc`; an uncaught Python
  exception is an `.error` value.
* `logger.info` / `logger.error` output is collected as a `List String` of the
  formatted message arguments (timestamps and levels are added by the logging
  collaborator and are not modelled).
* The asyncio heartbeat task is modelled as a state machine stepped once per
  elapsed sleep interval; each `Period` records whether a cancellation request
  arrived during that sleep and whether the client was closed when the task
  woke up.
-/

namespace DiscordSMF

/-- Python exceptions that the embedded code can raise. -/
inductive PyExc
  | attributeError
  | valueError
deriving DecidableEq

/-- Model of Python `str.casefold()`: character-wise lowercasing (exact for the
ASCII strings compared by this bot), written over the character list so that it
evaluates by kernel reduction. -/
def casefold (s : String) : String := String.mk (s.data.map Char.toLower)

/-- Python `x.casefold()` where `x` may be `None` (as `config.server_name` /
`config.channel_name` may be): `None.casefold()` raises `AttributeError`. -/
def casefoldOpt : Option String → Except PyExc String
  | none => Except.error PyExc.attributeError
  | some s => Except.ok (casefold s)

/-- Python `"{}".format(x)` on an optional string: `None` formats as `"None"`. -/
def pyFormatOptStr : Option String → String
  | none => "None"
  | some s => s

/-- Python `nick or name` (used as `message.author.nick or message.author.name`):
`or` returns the second operand when the first is falsy, and both `None` and
the empty string are falsy. -/
def pyOrName (nick : Option String) (name : String) : String :=
  match nick with
  | none => name
  | some n => if n = "" then name else n

/-- A Discord channel. Old discord.py compares channels by their snowflake
`id`, so equality used by the event handlers is id-equality. -/
structure Channel where
  id : String
  name : String
deriving DecidableEq

/-- A Discord role; `position` is its ordinal position in the server. -/
structure Role where
  name : String
  position : Int
deriving DecidableEq

/-- A Discord server (guild), with the channels and roles the client sees. -/
structure Server where
  name : String
  channels : List Channel
  roles : List Role
deriving DecidableEq

/-- A message author: optional per-server nickname plus global display name. -/
structure Author where
  nick : Option String
  name : String
deriving DecidableEq

/-- An inbound Discord message as used by the handlers. -/
structure Message where
  id : String
  channel : Channel
  author : Author
  content : String
deriving DecidableEq

/-- Python `message.channel == discord_channel` where the global
`discord_channel` is `None` until resolution succeeds: comparison with `None`
is `False`, comparison with a `Channel` compares ids. -/
def channelEqPy (c : Channel) : Option Channel → Bool
  | none => false
  | some t => c.id == t.id

/-- The lookup `next((s for s in client.servers if s.name.casefold() == server_find))`
from `on_ready`, with the `StopIteration` of an exhausted generator modelled as
`none` (`List.find?` returns the first element satisfying the predicate). -/
def resolveByName (nameOf : α → String) (name_find : String) (es : List α) : Option α :=
  es.find? (fun e => casefold (nameOf e) == name_find)

/-- Event handler `on_message`: ignore messages outside the resolved channel,
otherwise log one line `<author> content`. -/
def on_message (discord_channel : Option Channel) (message : Message) : List String :=
  if channelEqPy message.channel discord_channel = false then []
  else ["<" ++ pyOrName message.author.nick message.author.name ++ "> " ++ message.content]

/-- Event handler `on_message_edit`: ignore events outside the resolved channel
(the guard tests `after.channel`), ignore content-preserving edits, otherwise
log a transition line and the two contents. -/
def on_message_edit (discord_channel : Option Channel) (before after : Message) : List String :=
  if channelEqPy after.channel discord_channel = false then []
  else if before.content == after.content then []
  else ["EDITED: <" ++ pyOrName after.author.nick after.author.name ++ "> " ++
          before.id ++ "->" ++ after.id,
        "\t" ++ before.content,
        "\t" ++ after.content]

/-- Event handler `on_message_delete`: ignore messages outside the resolved
channel, otherwise log one line (the source spells the prefix "DELTEATED"). -/
def on_message_delete (discord_channel : Option Channel) (message : Message) : List String :=
  if channelEqPy message.channel discord_channel = false then []
  else ["DELTEATED: <" ++ pyOrName message.author.nick message.author.name ++ "> " ++
          message.content]

/-- One elapsed sleep interval of the heartbeat task: was the task cancelled
during this sleep, and was the client closed when the task woke up. -/
structure Period where
  cancelled : Bool
  closed : Bool
deriving DecidableEq

/-- One iteration of the `heartbeat` loop body, from the running flag to the
new running flag and the log lines it emits: `await asyncio.sleep(interval)`
(where a pending cancellation terminates the task), then
`if client.is_closed: return`, then `logger.info("/thump/")`. -/
def hbStep (p : Period) : Bool → Bool × List String
  | false => (false, [])
  | true =>
    if p.cancelled then (false, [])
    else if p.closed then (false, [])
    else (true, ["/thump/"])

/-- The heartbeat loop run over a sequence of elapsed intervals. -/
def hbRun : List Period → Bool → Bool × List String
  | [], running => (running, [])
  | p :: ps, running =>
    let s := hbStep p running
    let r := hbRun ps s.1
    (r.1, s.2 ++ r.2)

/-- The `heartbeat_task` global: an asyncio task handle carrying its
cancellation flag. -/
structure HBTask where
  cancelRequested : Bool
deriving DecidableEq

/-- The shutdown-relevant module state: the optional heartbeat task handle and
whether the client connection is closed. -/
structure BotState where
  heartbeat_task : Option HBTask
  clientClosed : Bool
deriving DecidableEq

/-- The `quit` coroutine: `if heartbeat_task: heartbeat_task.cancel()` (a task
object is always truthy, so this cancels exactly when the task was started;
`Task.cancel` on an already-cancelled task is a no-op), then
`await client.close()` (a no-op on an already-closed client). Total: no path
raises. -/
def quit (s : BotState) : BotState :=
  let s1 :=
    match s.heartbeat_task with
    | none => s
    | some t => { s with heartbeat_task := some { t with cancelRequested := true } }
  { s1 with clientClosed := true }

/-- Python `max(iterable, key=...)`: raises `ValueError` on an empty iterable;
otherwise scans left to right, replacing the current best only on a strictly
greater key, so the first element with the maximal key wins. Used for
`top_role = max(discord_server.roles, key=lambda r: r.position)`. -/
def pyMaxBy (key : α → Int) : List α → Except PyExc α
  | [] => Except.error PyExc.valueError
  | x :: xs => Except.ok (xs.foldl (fun best a => if key a > key best then a else best) x)

/-- What `on_ready` reads from the connected client: the bot user and the list
of servers the client is currently joined to. -/
structure ClientInfo where
  userName : String
  userId : String
  servers : List Server
deriving DecidableEq

/-- The observable outcome of a successful `on_ready` run: the log lines it
emitted, the values left in the module globals, and how many times it called
`client.close()` and `quit()`. -/
structure ReadyResult where
  logs : List String
  discord_server : Option Server
  discord_channel : Option Channel
  top_role : Option Role
  closeCalls : Nat
  quitCalls : Nat
deriving DecidableEq

/-- The three informational lines `on_ready` logs before resolution. -/
def connectLogs (cl : ClientInfo) : List String :=
  ["=== CONNECTED ===",
   "Call me " ++ cl.userName ++ " (" ++ cl.userId ++ ")",
   "Member of " ++ toString cl.servers.length ++ " servers"]

/-- The `on_ready` event handler. Faithful to the source order: casefold the
configured server name (raising `AttributeError` when it is `None`), resolve
the server (on failure log an error, `await client.close()`, return), then the
same for the channel, then compute the top role with Python `max` (raising
`ValueError` on a server with no roles). `on_ready` never calls `quit()`, so
`quitCalls` is 0 on every path. Log lines emitted before an exception are
dropped with the `.error` result; no claim observes them. -/
def on_ready (server_name channel_name : Option String) (client : ClientInfo) :
    Except PyExc ReadyResult :=
  match casefoldOpt server_name with
  | Except.error e => Except.error e
  | Except.ok server_find =>
    match resolveByName Server.name server_find client.servers with
    | none =>
      Except.ok
        { logs := connectLogs client ++
            ["Not a member of any server named '" ++ pyFormatOptStr server_name ++ "'!"],
          discord_server := none, discord_channel := none, top_role := none,
          closeCalls := 1, quitCalls := 0 }
    | some srv =>
      match casefoldOpt channel_name with
      | Except.error e => Except.error e
      | Except.ok channel_find =>
        match resolveByName Channel.name channel_find srv.channels with
        | none =>
          Except.ok
            { logs := connectLogs client ++
                ["'" ++ srv.name ++ "' does not have any channels named '" ++
                  pyFormatOptStr channel_name ++ "'!"],
              discord_server := some srv, discord_channel := none, top_role := none,
              closeCalls := 1, quitCalls := 0 }
        | some chan =>
          match pyMaxBy (fun r => r.position) srv.roles with
          | Except.error e => Except.error e
          | Except.ok tr =>
            Except.ok
              { logs := connectLogs client ++
                  ["Listening to #" ++ chan.name ++ " on '" ++ srv.name ++ "'",
                   "Treating members in '" ++ tr.name ++
                     "' a little bit better than everyone else"],
                discord_server := some srv, discord_channel := some chan,
                top_role := some tr, closeCalls := 0, quitCalls := 0 }

/-- Projection used to state how often `on_ready` invoked `quit()`. -/
def quitCallsOf : Except PyExc ReadyResult → Nat
  | Except.ok r => r.quitCalls
  | Except.error _ => 0

/-- Projection used to state how often `on_ready` invoked `client.close()`. -/
def closeCallsOf : Except PyExc ReadyResult → Nat
  | Except.ok r => r.closeCalls
  | Except.error _ => 0

/-- Consume a run of ASCII digits, returning how many were consumed and the
rest of the input. -/
def spanDigits : List Char → Nat × List Char
  | [] => (0, [])
  | c :: cs =>
    if c.isDigit then
      let r := spanDigits cs
      (r.1 + 1, r.2)
    else (0, c :: cs)

/-- Consume an optional leading sign. -/
def consumeSign : List Char → List Char
  | '+' :: cs => cs
  | '-' :: cs => cs
  | cs => cs

/-- Accept an optional exponent part (input already lowercased), which must
consume the whole rest of the input. -/
def expTail : List Char → Bool
  | [] => true
  | 'e' :: cs =>
    let r := spanDigits (consumeSign cs)
    decide (0 < r.1) && r.2.isEmpty
  | _ => false

/-- Accept a float mantissa (digits, optionally with one dot, at least one
digit overall) followed by an optional exponent. -/
def floatBody (cs : List Char) : Bool :=
  let r1 := spanDigits cs
  match r1.2 with
  | '.' :: rest =>
    let r2 := spanDigits rest
    if r1.1 + r2.1 == 0 then false else expTail r2.2
  | other => if r1.1 == 0 then false else expTail other

/-- Strip leading and trailing whitespace from a character list (the
whitespace stripping Python `float(...)` performs on its argument). -/
def stripWS (cs : List Char) : List Char :=
  ((cs.dropWhile Char.isWhitespace).reverse.dropWhile Char.isWhitespace).reverse

/-- Model of the strings accepted by Python `float(...)`: optional surrounding
whitespace, optional sign, then either a decimal literal with optional
exponent or one of the special words inf/infinity/nan (case-insensitive).
Digit-group underscores (accepted by CPython since 3.6) are not modelled; no
claim depends on them. -/
def pyFloatAccepts (s : String) : Bool :=
  let cs := consumeSign (stripWS (s.data.map Char.toLower))
  if cs == "inf".data || cs == "infinity".data || cs == "nan".data then true
  else floatBody cs

/-- The state of a `configparser.ConfigParser` as the bot uses it: the
key/value pairs of the DEFAULT section (keys already lowercased by the parser)
and the names of the explicit sections. -/
structure PyConfig where
  defaults : List (String × String)
  sectionNames : List String
deriving DecidableEq

/-- `ConfigParser.__contains__`: a key is a member when it names the default
section or an existing section, so `self.config.default_section in self.config`
is always true. -/
def cpContains (cp : PyConfig) (key : String) : Bool :=
  key == "DEFAULT" || cp.sectionNames.contains key

/-- `ConfigParser.optionxform`: option names are lowercased. -/
def optionxform (s : String) : String := String.mk (s.data.map Char.toLower)

/-- `SectionProxy.get(name)` on the DEFAULT section: the stored string, or the
`None` fallback when the option is missing. -/
def sectionGet (cp : PyConfig) (name : String) : Option String :=
  (cp.defaults.find? (fun kv => kv.1 == optionxform name)).map (fun kv => kv.2)

/-- `SectionProxy.getfloat(name)`: a missing option yields the `None`
fallback; a present value that Python `float()` rejects raises `ValueError`.
The parsed float is represented by the accepted literal text (no claim reads
its numeric value). -/
def sectionGetfloat (cp : PyConfig) (name : String) : Except PyExc (Option String) :=
  match sectionGet cp name with
  | none => Except.ok none
  | some v => if pyFloatAccepts v then Except.ok (some v) else Except.error PyExc.valueError

/-- The getter `_config_prop_build(name)` builds for a `str` field: `None` if
the default section is somehow absent, otherwise `section.get(name)` (the
`try`/bare-`except` cannot fire here since `get` does not raise). -/
def configGetStr (cp : PyConfig) (name : String) : Option String :=
  if cpContains cp "DEFAULT" = false then none
  else sectionGet cp name

/-- The getter `_config_prop_build(name, float)` builds: `None` if the default
section is somehow absent, otherwise `section.getfloat(name)` with the
bare `except` turning any raised exception into `None`. -/
def configGetFloat (cp : PyConfig) (name : String) : Option String :=
  if cpContains cp "DEFAULT" = false then none
  else
    match sectionGetfloat cp name with
    | Except.ok v => v
    | Except.error _ => none

/-- `BotConfig.log_path`. -/
def log_path (cp : PyConfig) : Option String := configGetStr cp "log_path"

/-- `BotConfig.server_name`. -/
def server_name (cp : PyConfig) : Option String := configGetStr cp "server_name"

/-- `BotConfig.channel_name`. -/
def channel_name (cp : PyConfig) : Option String := configGetStr cp "channel_name"

/-- `BotConfig.send_interval` (float-typed property). -/
def send_interval (cp : PyConfig) : Option String := configGetFloat cp "send_interval"

/-- `BotConfig.token`. -/
def token (cp : PyConfig) : Option String := configGetStr cp "token"

/-- A concrete resolved target channel, used by witnesses. -/
def chan0 : Channel := ⟨"100", "general"⟩

/-- A concrete non-target channel, used by witnesses. -/
def chanOther : Channel := ⟨"200", "random"⟩

/-- A concrete author with a per-server nickname, used by witnesses. -/
def author0 : Author := ⟨some "Bob", "Robert"⟩

/-- From a stopped heartbeat task no further lines are ever emitted. -/
theorem hbRun_stopped (ps : List Period) : hbRun ps false = (false, []) := by
  induction ps with
  | nil => rfl
  | cons p ps ih => simp [hbRun, hbStep, ih]

/-- Running the heartbeat over concatenated interval sequences composes. -/
theorem hbRun_append (ps qs : List Period) (st : Bool) :
    hbRun (ps ++ qs) st =
      ((hbRun qs (hbRun ps st).1).1, (hbRun ps st).2 ++ (hbRun qs (hbRun ps st).1).2) := by
  induction ps generalizing st with
  | nil => simp [hbRun]
  | cons p ps ih => simp [hbRun, ih, List.append_assoc]

/-- `List.find?` returns a match that is preceded only by non-matches. -/
theorem find?_first_match {α : Type} (p : α → Bool) (pre post : List α) (e : α)
    (hpre : ∀ x ∈ pre, p x = false) (he : p e = true) :
    List.find? p (pre ++ e :: post) = some e := by
  induction pre with
  | nil => simp [List.find?, he]
  | cons x xs ih =>
    have hx : p x = false := hpre x (List.mem_cons_self x xs)
    simpa [List.find?, hx] using ih (fun y hy => hpre y (List.mem_cons_of_mem x hy))

/-- C3: the heartbeat loop sleeps for one interval, then terminates if the
session is closed, otherwise emits exactly one liveness line and repeats: it
emits exactly one "/thump/" line per elapsed interval while the session stays
open and uncancelled, stops without emitting at the first wake-up that finds
the session closed, and emits zero lines over any number of further intervals
once a cancellation has been observed. -/
theorem heartbeat_one_line_per_period :
    (∀ n : Nat,
        hbRun (List.replicate n ⟨false, false⟩) true = (true, List.replicate n "/thump/")) ∧
    hbStep ⟨false, false⟩ true = (true, ["/thump/"]) ∧
    (∀ qs : List Period, hbRun (⟨false, true⟩ :: qs) true = (false, [])) ∧
    (∀ (b : Bool) (ps qs : List Period),
        (hbRun (ps ++ ⟨true, b⟩ :: qs) true).2 = (hbRun ps true).2) := by
  refine ⟨?_, rfl, ?_, ?_⟩
  · intro n
    induction n with
    | zero => rfl
    | succ n ih => simp [List.replicate_succ, hbRun, hbStep, ih]
  · intro qs
    simp [hbRun, hbStep, hbRun_stopped]
  · intro b ps qs
    rw [hbRun_append]
    cases h : (hbRun ps true).1 <;> simp [hbRun, hbStep, hbRun_stopped]

/-- C6: `quit` is idempotent: a second call yields exactly the state of the
first; every call leaves the client closed and the heartbeat task (when one
was started) cancel-requested; the embedding is a total function, mirroring
that no path of `quit` raises. -/
theorem quit_idempotent (s : BotState) :
    quit (quit s) = quit s ∧
    (quit s).clientClosed = true ∧
    (quit s).heartbeat_task =
      (s.heartbeat_task).map (fun t => { t with cancelRequested := true }) := by
  cases s with
  | mk hb closed => cases hb <;> simp [quit]

/-- C10: before resolution has succeeded the target-channel global is still
unset (None), and the channel-equality guard then rejects every real message
channel, so all three handlers produce no output. -/
theorem unresolved_target_all_handlers_silent (m before after : Message) :
    on_message none m = [] ∧
    on_message_edit none before after = [] ∧
    on_message_delete none m = [] := by
  refine ⟨?_, ?_, ?_⟩ <;>
    simp [on_message, on_message_edit, on_message_delete, channelEqPy]

/-- C2: name resolution is case-insensitive (an entity stored as "General"
resolves under configured names "general" and "GENERAL", for servers and for
channels), and among several case-insensitive matches the first in iteration
order is chosen. -/
theorem resolution_case_insensitive_first_match :
    (∀ (cfg : String) (pre post : List Server) (e : Server),
        (∀ x ∈ pre, casefold x.name ≠ casefold cfg) →
        casefold e.name = casefold cfg →
        resolveByName Server.name (casefold cfg) (pre ++ e :: post) = some e) ∧
    resolveByName Server.name (casefold "general") [⟨"General", [], []⟩] =
      some ⟨"General", [], []⟩ ∧
    resolveByName Server.name (casefold "GENERAL") [⟨"General", [], []⟩] =
      some ⟨"General", [], []⟩ ∧
    resolveByName Channel.name (casefold "general") [⟨"100", "General"⟩] =
      some ⟨"100", "General"⟩ ∧
    resolveByName Channel.name (casefold "GENERAL") [⟨"100", "General"⟩] =
      some ⟨"100", "General"⟩ := by
  refine ⟨?_, by decide, by decide, by decide, by decide⟩
  intro cfg pre post e hpre he
  unfold resolveByName
  apply find?_first_match
  · intro x hx
    exact beq_eq_false_iff_ne.mpr (hpre x hx)
  · exact beq_iff_eq.mpr he

/-- C2 witness: with one non-match before it, the first of two
case-insensitive matches is chosen. -/
theorem resolution_case_insensitive_first_match_witness :
    resolveByName Server.name (casefold "blue")
      ([⟨"Red", [], []⟩] ++ ⟨"BLUE", [], []⟩ :: [⟨"Blue", [], []⟩]) =
      some ⟨"BLUE", [], []⟩ :=
  resolution_case_insensitive_first_match.1 "blue" [⟨"Red", [], []⟩] [⟨"Blue", [], []⟩]
    ⟨"BLUE", [], []⟩ (by decide) (by decide)

/-- C4: an Edited event on the resolved channel produces no output when the
content is unchanged, and exactly three log lines when it changed: a
transition line holding both message identifiers, then the before-content,
then the after-content. -/
theorem edited_event_output (t : Channel) (before after : Message)
    (hch : channelEqPy after.channel (some t) = true) :
    (before.content = after.content → on_message_edit (some t) before after = []) ∧
    (before.content ≠ after.content →
      on_message_edit (some t) before after =
        ["EDITED: <" ++ pyOrName after.author.nick after.author.name ++ "> " ++
           before.id ++ "->" ++ after.id,
         "\t" ++ before.content,
         "\t" ++ after.content] ∧
      (on_message_edit (some t) before after).length = 3) := by
  constructor
  · intro h
    simp [on_message_edit, hch, h]
  · intro h
    have hbeq : (before.content == after.content) = false := beq_eq_false_iff_ne.mpr h
    simp [on_message_edit, hch, hbeq]

/-- C4 witness: a concrete content-changing edit on the resolved channel. -/
theorem edited_event_output_witness :
    on_message_edit (some chan0) ⟨"1", chan0, author0, "a"⟩ ⟨"2", chan0, author0, "b"⟩ =
      ["EDITED: <" ++ pyOrName author0.nick author0.name ++ "> " ++ "1" ++ "->" ++ "2",
       "\t" ++ "a",
       "\t" ++ "b"] :=
  ((edited_event_output chan0 ⟨"1", chan0, author0, "a"⟩ ⟨"2", chan0, author0, "b"⟩
      (by decide)).2 (by decide)).1

/-- C5: an event whose channel is not the resolved target produces no log
output, for all three event kinds (for Edited the guard tests the after
message's channel). -/
theorem off_target_events_silent (t : Channel) (m before after : Message)
    (hm : channelEqPy m.channel (some t) = false)
    (ha : channelEqPy after.channel (some t) = false) :
    on_message (some t) m = [] ∧
    on_message_delete (some t) m = [] ∧
    on_message_edit (some t) before after = [] := by
  refine ⟨?_, ?_, ?_⟩ <;> simp [on_message, on_message_delete, on_message_edit, hm, ha]

/-- C5 witness: concrete events on a channel other than the target. -/
theorem off_target_events_silent_witness :
    on_message (some chan0) ⟨"3", chanOther, author0, "x"⟩ = [] ∧
    on_message_delete (some chan0) ⟨"3", chanOther, author0, "x"⟩ = [] ∧
    on_message_edit (some chan0) ⟨"3", chanOther, author0, "x"⟩
      ⟨"4", chanOther, author0, "y"⟩ = [] :=
  off_target_events_silent chan0 ⟨"3", chanOther, author0, "x"⟩
    ⟨"3", chanOther, author0, "x"⟩ ⟨"4", chanOther, author0, "y"⟩ (by decide) (by decide)

/-- C7 counterexample: a Created event on the resolved channel whose author
carries a per-server nickname that is the empty string is logged with the
global display name, not the nickname: Python `nick or name` treats the empty
nickname as falsy, so "the nickname is used whenever one exists" fails at this
input. -/
theorem created_event_nickname_counterexample :
    (Message.mk "5" chan0 ⟨some "", "Bob"⟩ "hi").author.nick = some "" ∧
    on_message (some chan0) (Message.mk "5" chan0 ⟨some "", "Bob"⟩ "hi") = ["<Bob> hi"] ∧
    ("<Bob> hi" : String) ≠ "<> hi" := by
  refine ⟨rfl, by decide, by decide⟩

/-- C7 (amended): a Created event on the resolved channel produces exactly one
log line `<author> content`, where the author is the per-server nickname when
one exists and is non-empty (Python truthiness of `nick or name`) and the
global display name otherwise; the author nickname "Bob" with content "hi"
yields the line `<Bob> hi`. -/
theorem created_event_log_format (t : Channel) (m : Message)
    (hch : channelEqPy m.channel (some t) = true) :
    on_message (some t) m =
      ["<" ++ pyOrName m.author.nick m.author.name ++ "> " ++ m.content] ∧
    (∀ n : String, m.author.nick = some n → n ≠ "" →
        pyOrName m.author.nick m.author.name = n) ∧
    ((m.author.nick = none ∨ m.author.nick = some "") →
        pyOrName m.author.nick m.author.name = m.author.name) ∧
    on_message (some chan0) (Message.mk "7" chan0 ⟨some "Bob", "Robert"⟩ "hi") =
      ["<Bob> hi"] := by
  refine ⟨?_, ?_, ?_, by decide⟩
  · simp [on_message, hch]
  · intro n hn hne
    simp [pyOrName, hn, hne]
  · rintro (hn | hn) <;> simp [pyOrName, hn]

/-- C7 witness: the nicknamed example message on the resolved channel. -/
theorem created_event_log_format_witness :
    on_message (some chan0) (Message.mk "7" chan0 ⟨some "Bob", "Robert"⟩ "hi") =
      ["<" ++ pyOrName (some "Bob") "Robert" ++ "> " ++ "hi"] :=
  (created_event_log_format chan0 (Message.mk "7" chan0 ⟨some "Bob", "Robert"⟩ "hi")
    (by decide)).1

/-- `on_ready` on a present server name that resolves to no joined server:
logs the error line, closes the client once, and never calls `quit`. -/
theorem on_ready_server_fail (cl : ClientInfo) (sn : String) (cn : Option String)
    (h : resolveByName Server.name (casefold sn) cl.servers = none) :
    on_ready (some sn) cn cl =
      Except.ok
        { logs := connectLogs cl ++
            ["Not a member of any server named '" ++ sn ++ "'!"],
          discord_server := none, discord_channel := none, top_role := none,
          closeCalls := 1, quitCalls := 0 } := by
  simp [on_ready, casefoldOpt, pyFormatOptStr, h]

/-- `on_ready` on a resolved server whose channels contain no match for the
present channel name: logs the error line, closes the client once, never
calls `quit`. -/
theorem on_ready_channel_fail (cl : ClientInfo) (sn cn : String) (srv : Server)
    (hs : resolveByName Server.name (casefold sn) cl.servers = some srv)
    (hc : resolveByName Channel.name (casefold cn) srv.channels = none) :
    on_ready (some sn) (some cn) cl =
      Except.ok
        { logs := connectLogs cl ++
            ["'" ++ srv.name ++ "' does not have any channels named '" ++ cn ++ "'!"],
          discord_server := some srv, discord_channel := none, top_role := none,
          closeCalls := 1, quitCalls := 0 } := by
  simp [on_ready, casefoldOpt, pyFormatOptStr, hs, hc]

/-- `on_ready` with the configured server name absent raises AttributeError
(`None.casefold()`). -/
theorem on_ready_none_server_name (cl : ClientInfo) (cn : Option String) :
    on_ready none cn cl = Except.error PyExc.attributeError := by
  simp [on_ready, casefoldOpt]

/-- `on_ready` with a resolvable server but the configured channel name absent
raises AttributeError (`None.casefold()`). -/
theorem on_ready_none_channel_name (cl : ClientInfo) (sn : String) (srv : Server)
    (hs : resolveByName Server.name (casefold sn) cl.servers = some srv) :
    on_ready (some sn) none cl = Except.error PyExc.attributeError := by
  simp [on_ready, casefoldOpt, hs]

/-- A concrete joined server, used in counterexamples and witnesses. -/
def server0 : Server := ⟨"Test", [⟨"100", "General"⟩], [⟨"everyone", 0⟩]⟩

/-- A concrete connected client, used in counterexamples and witnesses. -/
def client0 : ClientInfo := ⟨"bot", "42", [server0]⟩

/-- C1 counterexample: on a resolution failure (no joined server is named
"nosuch" in any casing) `on_ready` calls `client.close()` directly: the
Shutdown Coordinator `quit` is invoked zero times, not exactly once. -/
theorem resolution_failure_quit_never_invoked :
    quitCallsOf (on_ready (some "nosuch") (some "general") client0) = 0 ∧
    closeCallsOf (on_ready (some "nosuch") (some "general") client0) = 1 := by
  exact ⟨by decide, by decide⟩

/-- C1 (amended): if no joined server (or no channel of the resolved server)
matches the configured name case-insensitively, resolution fails and
`on_ready` closes the client directly, exactly once, without invoking `quit`;
the heartbeat task then observes the closed session at its first wake-up after
the close and terminates without emitting, so no heartbeat survives past its
next sleep interval and no liveness line is emitted after the close. -/
theorem resolution_failure_closes_without_quit :
    (∀ (cl : ClientInfo) (sn : String) (cn : Option String),
        resolveByName Server.name (casefold sn) cl.servers = none →
        quitCallsOf (on_ready (some sn) cn cl) = 0 ∧
        closeCallsOf (on_ready (some sn) cn cl) = 1) ∧
    (∀ (cl : ClientInfo) (sn cn : String) (srv : Server),
        resolveByName Server.name (casefold sn) cl.servers = some srv →
        resolveByName Channel.name (casefold cn) srv.channels = none →
        quitCallsOf (on_ready (some sn) (some cn) cl) = 0 ∧
        closeCallsOf (on_ready (some sn) (some cn) cl) = 1) ∧
    (∀ qs : List Period, hbRun (⟨false, true⟩ :: qs) true = (false, [])) := by
  refine ⟨?_, ?_, ?_⟩
  · intro cl sn cn h
    rw [on_ready_server_fail cl sn cn h]
    exact ⟨rfl, rfl⟩
  · intro cl sn cn srv hs hc
    rw [on_ready_channel_fail cl sn cn srv hs hc]
    exact ⟨rfl, rfl⟩
  · intro qs
    simp [hbRun, hbStep, hbRun_stopped]

/-- C1 witness: the concrete failing server resolution. -/
theorem resolution_failure_closes_without_quit_witness :
    quitCallsOf (on_ready (some "nosuch") (some "x") client0) = 0 ∧
    closeCallsOf (on_ready (some "nosuch") (some "x") client0) = 1 :=
  resolution_failure_closes_without_quit.1 client0 "nosuch" (some "x") (by decide)

/-- C9 counterexample: with the server name absent from the config, the
resolution step raises AttributeError (`None.casefold()`) instead of logging
an error and closing the session, so "no uncaught exception arises in the
resolution step for any configured-name value, including the absent/None
case" fails. -/
theorem resolution_none_crash_counterexample :
    on_ready none (some "general") client0 = Except.error PyExc.attributeError := by
  rfl

/-- C9 (amended): when the configured server (or channel) name is a present
string that matches no entity, resolution fails by logging an error line and
closing the client — a normal return, not an exception; when the configured
name is absent (None), however, the resolution step raises AttributeError
rather than logging and closing. -/
theorem resolution_error_logged_not_raised :
    (∀ (cl : ClientInfo) (sn : String) (cn : Option String),
        resolveByName Server.name (casefold sn) cl.servers = none →
        on_ready (some sn) cn cl =
          Except.ok
            { logs := connectLogs cl ++
                ["Not a member of any server named '" ++ sn ++ "'!"],
              discord_server := none, discord_channel := none, top_role := none,
              closeCalls := 1, quitCalls := 0 }) ∧
    (∀ (cl : ClientInfo) (sn cn : String) (srv : Server),
        resolveByName Server.name (casefold sn) cl.servers = some srv →
        resolveByName Channel.name (casefold cn) srv.channels = none →
        on_ready (some sn) (some cn) cl =
          Except.ok
            { logs := connectLogs cl ++
                ["'" ++ srv.name ++ "' does not have any channels named '" ++
                  cn ++ "'!"],
              discord_server := some srv, discord_channel := none, top_role := none,
              closeCalls := 1, quitCalls := 0 }) ∧
    (∀ (cl : ClientInfo) (cn : Option String),
        on_ready none cn cl = Except.error PyExc.attributeError) ∧
    (∀ (cl : ClientInfo) (sn : String) (srv : Server),
        resolveByName Server.name (casefold sn) cl.servers = some srv →
        on_ready (some sn) none cl = Except.error PyExc.attributeError) :=
  ⟨on_ready_server_fail, on_ready_channel_fail,
   on_ready_none_server_name, on_ready_none_channel_name⟩

/-- C9 witness: a present but unmatched server name closes normally with the
logged error. -/
theorem resolution_error_logged_not_raised_witness :
    on_ready (some "ghost") (some "general") client0 =
      Except.ok
        { logs := connectLogs client0 ++
            ["Not a member of any server named '" ++ "ghost" ++ "'!"],
          discord_server := none, discord_channel := none, top_role := none,
          closeCalls := 1, quitCalls := 0 } :=
  resolution_error_logged_not_raised.1 client0 "ghost" (some "general") (by decide)

/-- C8: BotConfig property reads never raise: on an empty parse (no config
file, hence a missing/empty section) all five properties read as None; a
missing field reads as None through both the str- and float-typed getters; a
present send_interval that Python float() rejects reads as None (the
ValueError is swallowed by the bare except); in general, whenever getfloat
raises, the property getter returns None. -/
theorem config_props_missing_to_none :
    (log_path ⟨[], []⟩ = none ∧ server_name ⟨[], []⟩ = none ∧
      channel_name ⟨[], []⟩ = none ∧ send_interval ⟨[], []⟩ = none ∧
      token ⟨[], []⟩ = none) ∧
    (∀ (cp : PyConfig) (name : String), sectionGet cp name = none →
        configGetStr cp name = none ∧ configGetFloat cp name = none) ∧
    (∀ (cp : PyConfig) (v : String), sectionGet cp "send_interval" = some v →
        pyFloatAccepts v = false → send_interval cp = none) ∧
    (∀ (cp : PyConfig) (name : String) (e : PyExc),
        sectionGetfloat cp name = Except.error e → configGetFloat cp name = none) := by
  refine ⟨⟨rfl, rfl, rfl, rfl, rfl⟩, ?_, ?_, ?_⟩
  · intro cp name h
    constructor
    · simp [configGetStr, cpContains, h]
    · simp [configGetFloat, cpContains, sectionGetfloat, h]
  · intro cp v hv hacc
    simp [send_interval, configGetFloat, cpContains, sectionGetfloat, hv, hacc]
  · intro cp name e h
    simp [configGetFloat, cpContains, h]

/-- C8 witness: a config storing a non-float send_interval reads as None. -/
theorem config_props_missing_to_none_witness :
    send_interval ⟨[("send_interval", "thirty")], []⟩ = none :=
  config_props_missing_to_none.2.2.1 ⟨[("send_interval", "thirty")], []⟩ "thirty"
    (by decide) (by decide)

end DiscordSMF
